import Mathlib

/-!
Shallow embedding of the databutton storage client
(`databutton/storage/storage.py`, `databutton/internal/retries.py`,
`databutton/internal/auth.py`) and proofs about it.

Modelling conventions:
* Python byte strings are `List Nat` (each element a byte value).
* Python exceptions are the inductive `PyExc`; fallible code returns
  `Except PyExc α`.
* The network is an oracle `Nat → Except PyExc resp`: attempt `n` of an
  HTTP call either raises (`error`) or yields the parsed response
  (status code plus payload).  Functions decorated with
  `default_dbapi_retry` in the source are wrapped with the retry
  combinator over that oracle; undecorated functions consult the oracle
  exactly once.
* `hashlib.md5` is modelled incrementally: the hasher state is the list
  of absorbed bytes, and the digest is an arbitrary function
  `md5f : List Nat → List Nat` universally quantified in the theorems.
* `base64.b64encode` is implemented concretely (`b64encode`).
* `time.time()` is a rational-number parameter threaded explicitly.
-/

namespace Databutton

/-- Chunk size constant from the source: `CHUNKSIZE = 4 * 1024 * 1024`. -/
def CHUNKSIZE : Nat := 4 * 1024 * 1024

/-- Fuel-indexed chunking of a byte buffer, mirroring the Python pattern
`while chunk := f.read(CHUNKSIZE)` which yields successive non-empty
chunks of at most `n` bytes and stops on the empty read. -/
def chunksOfFuel (fuel : Nat) (n : Nat) (l : List α) : List (List α) :=
  match fuel, l with
  | 0, _ => []
  | _, [] => []
  | fuel + 1, l => l.take n :: chunksOfFuel fuel n (l.drop n)

/-- All chunks of a buffer (`l.length` fuel always suffices for `0 < n`). -/
def chunksOf (n : Nat) (l : List α) : List (List α) :=
  chunksOfFuel l.length n l

/-- The base64 alphabet used by `base64.b64encode`. -/
def b64alphabet : List Char :=
  "ABCDEFGHIJKLMNOPQRSTUVWXYZabcdefghijklmnopqrstuvwxyz0123456789+/".toList

/-- Index into the base64 alphabet. -/
def b64idx (n : Nat) : Char := b64alphabet.getD n 'A'

/-- `base64.b64encode` on a byte list, producing the ASCII characters
(with `=` padding), as done for MD5 digests in the source. -/
def b64encode : List Nat → List Char
  | [] => []
  | [a] => [b64idx (a / 4), b64idx (a % 4 * 16), '=', '=']
  | [a, b] => [b64idx (a / 4), b64idx (a % 4 * 16 + b / 16), b64idx (b % 16 * 4), '=']
  | a :: b :: c :: rest =>
      b64idx (a / 4) :: b64idx (a % 4 * 16 + b / 16) ::
      b64idx (b % 16 * 4 + c / 64) :: b64idx (c % 64) :: b64encode rest

/-- `base64.b64encode(..).decode("utf-8")`: the digest as a string. -/
def b64string (bytes : List Nat) : String := (b64encode bytes).asString

/-- Python exceptions relevant to this subsystem.
`timeoutException` is `httpx.TimeoutException`, `networkError` is
`httpx.NetworkError`, `tryAgain` is `tenacity.TryAgain`. -/
inductive PyExc where
  | timeoutException : PyExc
  | networkError : PyExc
  | tryAgain : PyExc
  | runtimeError (msg : String) : PyExc
  | fileNotFoundError (msg : String) : PyExc
  | valueError (msg : String) : PyExc
deriving DecidableEq, Repr

/-- `retries.is_retryable_exception`: timeouts, network errors and the
explicit try-again signal are transient; everything else is fatal. -/
def is_retryable_exception : PyExc → Bool
  | .timeoutException => true
  | .networkError => true
  | .tryAgain => true
  | _ => false

/-- One run of the tenacity retry loop (`stop_after_attempt`,
`retry_if_exception(is_retryable_exception)`, `reraise=True`).
`n` is the 1-based attempt number about to run and `retriesLeft` the
number of further attempts still allowed after it; when no retries are
left the outcome of attempt `n` — the last error unchanged, per
`reraise=True` — is returned as is.  Returns the final outcome together
with the index of the last attempt performed.  The `wait` strategy only
affects timing, not results, so it is not modelled. -/
def retryGo (f : Nat → Except PyExc α) : Nat → Nat → Except PyExc α × Nat
  | n, 0 => (f n, n)
  | n, retriesLeft + 1 =>
    match f n with
    | .ok a => (.ok a, n)
    | .error e =>
      if is_retryable_exception e then retryGo f (n + 1) retriesLeft
      else (.error e, n)

/-- `retries.default_dbapi_retry`: at most 5 attempts (4 retries after
the first attempt), retrying only transient errors, re-raising the last
error unchanged on exhaustion. -/
def default_dbapi_retry (f : Nat → Except PyExc α) : Except PyExc α × Nat :=
  retryGo f 1 4

/-- Error message constant `invalid_data_key_error_message`. -/
def invalid_data_key_error_message : String :=
  "Data key can only consist of letters (A-Z, a-z), digits (0-9), or the symbols \"._-\"."

/-- A character allowed by the key pattern `[a-zA-Z0-9-_.]`. -/
def isDataKeyChar (c : Char) : Bool :=
  c.isAlphanum || c == '-' || c == '_' || c == '.'

/-- `data_key_is_valid`: `re.compile("^[a-zA-Z0-9-_.]+$").match(key)`.
Python `$` (without `re.MULTILINE`) also matches just before a single
trailing newline, so a nonempty all-valid string optionally followed by
one final newline is accepted. -/
def data_key_is_valid (key : String) : Bool :=
  let cs := key.data
  (!cs.isEmpty && cs.all isDataKeyChar) ||
    (cs.getLast? == some '\n' && !cs.dropLast.isEmpty && cs.dropLast.all isDataKeyChar)

/-- Pydantic model `Property`. -/
structure Property where
  name : Option String
  dtype : Option String
deriving DecidableEq, Repr

/-- Pydantic model `ContentShape`. -/
structure ContentShape where
  numberOfRows : Nat
  numberOfProperties : Nat
  properties : Option (List Property) := none
deriving DecidableEq, Repr

/-- Pydantic model `FileListEntry`. -/
structure FileListEntry where
  name : String
  size : Nat
deriving DecidableEq, Repr

/-- Pydantic model `PrepareRequest`. -/
structure PrepareRequest where
  uploadedBy : String
  dataKey : String
  contentType : String
  contentLength : Nat
  contentMd5Checksum : String
  contentShape : Option ContentShape := none
deriving DecidableEq, Repr

/-- Pydantic model `PrepareResponse`. -/
structure PrepareResponse where
  sessionUrl : String
  blobKey : String
deriving DecidableEq, Repr

/-- Pydantic model `GetUrlResponse`. -/
structure GetUrlResponse where
  signedUrl : String
  md5 : String
  size : Nat
deriving DecidableEq, Repr

/-- One network attempt: consult the oracle (the HTTP call itself, which
may raise a transport error) and run the response-handling body of the
decorated function on the parsed response. -/
def wrapNet (body : ρ → Except PyExc α) (net : Nat → Except PyExc ρ) (n : Nat) :
    Except PyExc α :=
  (net n).bind body

/-- Response handling of `list_files`: 200 parses the file list, any
other status raises `RuntimeError`. -/
def list_files_body (resp : Nat × List FileListEntry) : Except PyExc (List FileListEntry) :=
  if resp.1 = 200 then .ok resp.2
  else .error (.runtimeError ("File list request failed, status_code=" ++ toString resp.1))

/-- `list_files`, which is decorated with `@default_dbapi_retry`.
Returns the outcome and the number of attempts performed. -/
def list_files (net : Nat → Except PyExc (Nat × List FileListEntry)) :
    Except PyExc (List FileListEntry) × Nat :=
  default_dbapi_retry (wrapNet list_files_body net)

/-- Response handling of `delete_file`: 200 and 404 both succeed (absent
key is silently ignored), any other status raises `RuntimeError`. -/
def delete_file_body (status : Nat) : Except PyExc Unit :=
  if status = 200 then .ok ()
  else if status = 404 then .ok ()
  else .error (.runtimeError ("File delete request failed, status_code=" ++ toString status))

/-- `delete_file` carries no retry decorator in the source: the oracle
is consulted exactly once. -/
def delete_file (net : Nat → Except PyExc Nat) : Except PyExc Unit × Nat :=
  ((net 1).bind delete_file_body, 1)

/-- Response handling of `prepare_upload`. -/
def prepare_upload_body (dataKey : String) (resp : Nat × PrepareResponse) :
    Except PyExc PrepareResponse :=
  if resp.1 = 200 then .ok resp.2
  else .error (.runtimeError
    ("Upload preparations for '" ++ dataKey ++ "' failed, status_code=" ++ toString resp.1))

/-- `prepare_upload`, decorated with `@default_dbapi_retry`. -/
def prepare_upload (dataKey : String) (net : Nat → Except PyExc (Nat × PrepareResponse)) :
    Except PyExc PrepareResponse × Nat :=
  default_dbapi_retry (wrapNet (prepare_upload_body dataKey) net)

/-- Response handling of `gcs_upload` (the data-plane PUT). -/
def gcs_upload_body (data_key blob_key : String) (status : Nat) : Except PyExc Unit :=
  if status = 200 then .ok ()
  else .error (.runtimeError
    ("Upload of '" ++ data_key ++ "' to '" ++ blob_key ++ "' failed, status_code=" ++
      toString status))

/-- `gcs_upload`, decorated with `@default_dbapi_retry`. -/
def gcs_upload (data_key blob_key : String) (net : Nat → Except PyExc Nat) :
    Except PyExc Unit × Nat :=
  default_dbapi_retry (wrapNet (gcs_upload_body data_key blob_key) net)

/-- Response handling of `get_download_url`: 200 parses the signed URL
and expected size/digest, 404 raises `FileNotFoundError`, anything else
raises `RuntimeError`. -/
def get_download_url_body (data_key : String) (resp : Nat × GetUrlResponse) :
    Except PyExc GetUrlResponse :=
  if resp.1 = 200 then .ok resp.2
  else if resp.1 = 404 then .error (.fileNotFoundError (data_key ++ " not found"))
  else .error (.runtimeError
    ("Download preparations for '" ++ data_key ++ "' failed, status_code=" ++ toString resp.1))

/-- `get_download_url`, decorated with `@default_dbapi_retry`. -/
def get_download_url (data_key : String) (net : Nat → Except PyExc (Nat × GetUrlResponse)) :
    Except PyExc GetUrlResponse × Nat :=
  default_dbapi_retry (wrapNet (get_download_url_body data_key) net)

/-- `stream_download_response_to_file`: iterate the response body in
`CHUNKSIZE` chunks, writing each chunk to the data file while updating
the MD5 hasher (modelled as the absorbed byte list) and the byte count.
Returns `(actual_md5_hash, actual_size, data file content)`. -/
def stream_download_response_to_file (resp_body : List Nat) (md5f : List Nat → List Nat) :
    String × Nat × List Nat :=
  let fin := (chunksOf CHUNKSIZE resp_body).foldl
    (fun acc chunk => (acc.1 ++ chunk, acc.2.1 + chunk.length, acc.2.2 ++ chunk))
    (([] : List Nat), 0, ([] : List Nat))
  (b64string (md5f fin.1), fin.2.1, fin.2.2)

/-- `gcs_download`: a single (undecorated) GET of the signed URL; on 200
the body is streamed to the data file while hashed and counted, then the
accumulated size and digest are compared with the server-declared ones,
raising `RuntimeError` on the first mismatch (size first, then
checksum); 404 raises `FileNotFoundError`; any other status raises
`RuntimeError`.  On success, returns the data file content. -/
def gcs_download (data_key : String) (geturl_response : GetUrlResponse)
    (net : Nat → Except PyExc (Nat × List Nat)) (md5f : List Nat → List Nat) :
    Except PyExc (List Nat) :=
  match net 1 with
  | .error e => .error e
  | .ok (status, body) =>
    if status = 200 then
      let streamed := stream_download_response_to_file body md5f
      if geturl_response.size ≠ streamed.2.1 then
        .error (.runtimeError
          ("File sizes do not match: " ++ toString geturl_response.size ++ " != " ++
            toString streamed.2.1))
      else if geturl_response.md5 ≠ streamed.1 then
        .error (.runtimeError
          ("Checksums do not match: " ++ geturl_response.md5 ++ " != " ++ streamed.1))
      else .ok streamed.2.2
    else if status = 404 then .error (.fileNotFoundError (data_key ++ " not found"))
    else .error (.runtimeError
      ("Download of '" ++ data_key ++ "' failed, status_code=" ++ toString status ++
        ", url=" ++ geturl_response.signedUrl))

/-- A Python `default` argument: `None`, a plain value, or a callable
(the source tests `callable(default)` and invokes it). -/
inductive PyDefault (V : Type) where
  | none : PyDefault V
  | value (v : V) : PyDefault V
  | callableDefault (f : Unit → V) : PyDefault V

/-- `serialized_download`: geturl then gcs_download then decode, with
the `except FileNotFoundError` handler substituting the default.  Note
no key validation is performed here. -/
def serialized_download (decode : List Nat → V) (key : String)
    (geturlNet : Nat → Except PyExc (Nat × GetUrlResponse))
    (gcsNet : Nat → Except PyExc (Nat × List Nat))
    (dflt : PyDefault V) (md5f : List Nat → List Nat) : Except PyExc V :=
  let pipeline : Except PyExc V :=
    match (get_download_url key geturlNet).1 with
    | .error e => .error e
    | .ok gres =>
      match gcs_download key gres gcsNet md5f with
      | .error e => .error e
      | .ok fileBytes => .ok (decode fileBytes)
  match pipeline with
  | .error (.fileNotFoundError m) =>
    match dflt with
    | .none => .error (.fileNotFoundError m)
    | .value v => .ok v
    | .callableDefault f => .ok (f ())
  | r => r

/-- Number of network calls issued by `serialized_download`: the geturl
attempts, plus the single data-plane GET when the geturl step
succeeded. -/
def serialized_download_calls (key : String)
    (geturlNet : Nat → Except PyExc (Nat × GetUrlResponse)) : Nat :=
  let g := get_download_url key geturlNet
  g.2 + (match g.1 with | .ok _ => 1 | .error _ => 0)

/-- The size/MD5 pass of `serialized_upload`: read the serialized buffer
back in `CHUNKSIZE` chunks, accumulating byte count and updating the
hasher chunk-wise.  Returns `(absorbed bytes, size)`. -/
def hash_and_size (bytes : List Nat) : List Nat × Nat :=
  (chunksOf CHUNKSIZE bytes).foldl
    (fun acc chunk => (acc.1 ++ chunk, acc.2 + chunk.length)) (([] : List Nat), 0)

/-- The `PrepareRequest` built by `serialized_upload` from the
serialized bytes: length and base64 MD5 from the chunked pass, content
type and shape from the serializer. -/
def upload_prepare_request (performer key content_type : String)
    (shape : Option ContentShape) (bytes : List Nat) (md5f : List Nat → List Nat) :
    PrepareRequest :=
  let hs := hash_and_size bytes
  { uploadedBy := performer
    dataKey := key
    contentType := content_type
    contentLength := hs.2
    contentMd5Checksum := b64string (md5f hs.1)
    contentShape := shape }

/-- Observable outcome of `serialized_upload`: final result, the
prepare request sent to the control plane (if any), and how many
network calls were issued. -/
structure UploadTrace where
  result : Except PyExc Unit
  prepareRequestSent : Option PrepareRequest
  networkCalls : Nat

/-- `serialized_upload`: validate the key (raising `ValueError` before
any network call on failure), serialize, compute size and digest by the
chunked pass, send the prepare request (retried), then PUT the bytes to
the returned session URL (retried). -/
def serialized_upload (encode : V → List Nat) (content_type : String)
    (shapeOf : V → Option ContentShape) (performer key : String) (v : V)
    (md5f : List Nat → List Nat)
    (prepNet : Nat → Except PyExc (Nat × PrepareResponse))
    (putNet : Nat → Except PyExc Nat) : UploadTrace :=
  if data_key_is_valid key then
    let bytes := encode v
    let req := upload_prepare_request performer key content_type (shapeOf v) bytes md5f
    let p := prepare_upload key prepNet
    match p.1 with
    | .error e => ⟨.error e, some req, p.2⟩
    | .ok presp =>
      let up := gcs_upload key presp.blobKey putNet
      ⟨up.1, some req, p.2 + up.2⟩
  else ⟨.error (.valueError invalid_data_key_error_message), none, 0⟩

/-- `auth.DatabuttonAuth` state. -/
structure DatabuttonAuth where
  api_key : String
  refresh_token : String
  access_token : String
  last_refresh : ℚ

/-- `DatabuttonAuth.refresh_interval = 15 * 60` seconds. -/
def refresh_interval : ℚ := 15 * 60

/-- `token_expires_soon`: `time() - self.last_refresh > self.refresh_interval`
(strict comparison). -/
def token_expires_soon (a : DatabuttonAuth) (now : ℚ) : Bool :=
  decide (now - a.last_refresh > refresh_interval)

/-- `handle_refresh_response`: on 200 store the `id_token` and reset the
freshness timestamp to the current time; otherwise raise. -/
def handle_refresh_response (a : DatabuttonAuth) (resp : Nat × String) (now : ℚ) :
    Except PyExc DatabuttonAuth :=
  if resp.1 = 200 then .ok { a with access_token := resp.2, last_refresh := now }
  else .error (.runtimeError "Token refresh failed")

/-- `apply_access_token`: attach the bearer header, raising if the token
is missing. -/
def apply_access_token (a : DatabuttonAuth) : Except PyExc String :=
  if a.access_token = "" then .error (.runtimeError "databutton auth flow missing access token!")
  else .ok ("Bearer " ++ a.access_token)

/-- `auth_flow`: if the token is stale, perform one refresh exchange
(modelled by its response `refreshResp`, handled at time `nowResp`)
before attaching the bearer token to the outgoing request.  Returns the
new auth state, the number of refresh exchanges performed (0 or 1) and
the attached authorization header. -/
def auth_flow (a : DatabuttonAuth) (now nowResp : ℚ) (refreshResp : Nat × String) :
    Except PyExc (DatabuttonAuth × Nat × String) :=
  if token_expires_soon a now then
    match handle_refresh_response a refreshResp nowResp with
    | .error e => .error e
    | .ok a2 =>
      match apply_access_token a2 with
      | .error e => .error e
      | .ok hdr => .ok (a2, 1, hdr)
  else
    match apply_access_token a with
    | .error e => .error e
    | .ok hdr => .ok (a, 0, hdr)

/-- `DataFramesStorage.get`: when no default is given and
`ignore_not_found` is true, substitute a callable producing an empty
DataFrame before delegating to `serialized_download`.  The DataFrame
type is abstract (`DF`) with `emptyDF` standing for `pd.DataFrame()`. -/
def dataframes_get {DF : Type} (emptyDF : DF) (decode : List Nat → DF) (key : String)
    (geturlNet : Nat → Except PyExc (Nat × GetUrlResponse))
    (gcsNet : Nat → Except PyExc (Nat × List Nat))
    (md5f : List Nat → List Nat) (ignore_not_found : Bool) (dflt : PyDefault DF) :
    Except PyExc DF :=
  let d2 := match dflt, ignore_not_found with
    | .none, true => .callableDefault (fun _ => emptyDF)
    | d, _ => d
  serialized_download decode key geturlNet gcsNet d2 md5f

/-! ### Serializers

`BinarySerializer` works on raw bytes; `TextSerializer` uses
`str.encode("utf-8")` / `bytes.decode("utf-8", errors="strict")`, both
implemented here over lists of Unicode code points; `JsonSerializer`
uses `json.dumps` / `json.loads`, modelled at the level of the mapping
between Python values and JSON documents (the stdlib's rendering of a
JSON document to text and parsing it back is taken as an inverse pair,
which it is for documents produced by `json.dumps`). -/

/-- `BinarySerializer.encode_into`: writes the bytes unchanged. -/
def binary_encode (value : List Nat) : List Nat := value

/-- `BinarySerializer.decode_from`: reads the bytes unchanged. -/
def binary_decode (data : List Nat) : List Nat := data

/-- A Unicode scalar value: in range and not a surrogate.  Python `str`
code points outside this set (lone surrogates) make `encode("utf-8")`
raise. -/
def isUtf8Scalar (c : Nat) : Bool :=
  decide (c < 0x110000 ∧ ¬(0xD800 ≤ c ∧ c < 0xE000))

/-- UTF-8 encoding of a single scalar value (1 to 4 bytes). -/
def utf8EncodeChar (c : Nat) : List Nat :=
  if c < 0x80 then [c]
  else if c < 0x800 then [0xC0 + c / 64, 0x80 + c % 64]
  else if c < 0x10000 then [0xE0 + c / 4096, 0x80 + c / 64 % 64, 0x80 + c % 64]
  else [0xF0 + c / 262144, 0x80 + c / 4096 % 64, 0x80 + c / 64 % 64, 0x80 + c % 64]

/-- `str.encode("utf-8")`: fails (raises `UnicodeEncodeError`) when the
string contains a lone surrogate, else concatenates per-char encodings. -/
def pyEncodeUtf8 (s : List Nat) : Option (List Nat) :=
  if s.all isUtf8Scalar then some ((s.map utf8EncodeChar).flatten) else none

/-- A UTF-8 continuation byte `10xxxxxx`. -/
def isUtf8Cont (b : Nat) : Bool :=
  decide (0x80 ≤ b) && decide (b < 0xC0)

/-- Strict decoding of one UTF-8 sequence from the front of a byte
list: rejects continuation-byte leads, overlong forms, surrogates and
out-of-range values, as CPython's strict utf-8 decoder does. -/
def utf8DecodeOne : List Nat → Option (Nat × List Nat)
  | [] => none
  | b :: rest =>
    if b < 0x80 then some (b, rest)
    else if b < 0xC2 then none
    else if b < 0xE0 then
      match rest with
      | b1 :: r =>
        if isUtf8Cont b1 then some ((b - 0xC0) * 64 + (b1 - 0x80), r) else none
      | [] => none
    else if b < 0xF0 then
      match rest with
      | b1 :: b2 :: r =>
        if isUtf8Cont b1 && isUtf8Cont b2 then
          if (b - 0xE0) * 4096 + (b1 - 0x80) * 64 + (b2 - 0x80) < 0x800 ∨
              (0xD800 ≤ (b - 0xE0) * 4096 + (b1 - 0x80) * 64 + (b2 - 0x80) ∧
                (b - 0xE0) * 4096 + (b1 - 0x80) * 64 + (b2 - 0x80) < 0xE000) then none
          else some ((b - 0xE0) * 4096 + (b1 - 0x80) * 64 + (b2 - 0x80), r)
        else none
      | _ => none
    else if b < 0xF5 then
      match rest with
      | b1 :: b2 :: b3 :: r =>
        if isUtf8Cont b1 && isUtf8Cont b2 && isUtf8Cont b3 then
          if (b - 0xF0) * 262144 + (b1 - 0x80) * 4096 + (b2 - 0x80) * 64 + (b3 - 0x80) < 0x10000 ∨
              0x110000 ≤ (b - 0xF0) * 262144 + (b1 - 0x80) * 4096 + (b2 - 0x80) * 64 + (b3 - 0x80)
            then none
          else some ((b - 0xF0) * 262144 + (b1 - 0x80) * 4096 + (b2 - 0x80) * 64 + (b3 - 0x80), r)
        else none
      | _ => none
    else none

/-- Fuel-indexed strict UTF-8 decoding loop (each step consumes at
least one byte, so `bytes.length` fuel always suffices). -/
def utf8DecodeFuel : Nat → List Nat → Option (List Nat)
  | 0, l => if l = [] then some [] else none
  | fuel + 1, l =>
    if l = [] then some []
    else
      match utf8DecodeOne l with
      | some (c, rest) => (utf8DecodeFuel fuel rest).map (c :: ·)
      | none => none

/-- `bytes.decode("utf-8", errors="strict")`. -/
def pyDecodeUtf8 (bytes : List Nat) : Option (List Nat) :=
  utf8DecodeFuel bytes.length bytes

/-- `TextSerializer.encode_into`. -/
def text_encode (value : List Nat) : Option (List Nat) := pyEncodeUtf8 value

/-- `TextSerializer.decode_from`. -/
def text_decode (data : List Nat) : Option (List Nat) := pyDecodeUtf8 data

mutual
/-- Python values handled by the json store (floats are out of scope of
this development). -/
inductive PyVal where
  | pnone : PyVal
  | pbool (b : Bool) : PyVal
  | pint (n : Int) : PyVal
  | pstr (s : String) : PyVal
  | plist (xs : PyListV) : PyVal
  | ptuple (xs : PyListV) : PyVal
  | pdict (kvs : PyDictV) : PyVal
deriving DecidableEq, Repr
/-- A Python list of `PyVal`. -/
inductive PyListV where
  | nil : PyListV
  | cons (hd : PyVal) (tl : PyListV) : PyListV
deriving DecidableEq, Repr
/-- A Python dict as an insertion-ordered association list. -/
inductive PyDictV where
  | nil : PyDictV
  | cons (k v : PyVal) (tl : PyDictV) : PyDictV
deriving DecidableEq, Repr
end

mutual
/-- A JSON document. -/
inductive JVal where
  | jnull : JVal
  | jbool (b : Bool) : JVal
  | jnum (n : Int) : JVal
  | jstr (s : String) : JVal
  | jarr (xs : JArr) : JVal
  | jobj (kvs : JObj) : JVal
deriving DecidableEq, Repr
/-- A JSON array. -/
inductive JArr where
  | nil : JArr
  | cons (hd : JVal) (tl : JArr) : JArr
deriving DecidableEq, Repr
/-- A JSON object (ordered). -/
inductive JObj where
  | nil : JObj
  | cons (k : String) (v : JVal) (tl : JObj) : JObj
deriving DecidableEq, Repr
end

/-- `json.dumps` key coercion: string keys pass through; int, bool and
`None` keys are silently converted to their JSON spellings; other key
types raise `TypeError` (`none` here). -/
def jsonKeyToString : PyVal → Option String
  | .pstr s => some s
  | .pint n => some (toString n)
  | .pbool true => some "true"
  | .pbool false => some "false"
  | .pnone => some "null"
  | _ => none

mutual
/-- `json.dumps`: the JSON document produced for a Python value, or
`none` when serialization raises (unsupported type). -/
def pyJsonDumps : PyVal → Option JVal
  | .pnone => some .jnull
  | .pbool b => some (.jbool b)
  | .pint n => some (.jnum n)
  | .pstr s => some (.jstr s)
  | .plist xs => (pyJsonDumpsList xs).map .jarr
  | .ptuple xs => (pyJsonDumpsList xs).map .jarr
  | .pdict kvs => (pyJsonDumpsDict kvs).map .jobj
/-- `json.dumps` on a list (and on a tuple, which serializes as an
array). -/
def pyJsonDumpsList : PyListV → Option JArr
  | .nil => some .nil
  | .cons v tl =>
    match pyJsonDumps v, pyJsonDumpsList tl with
    | some jv, some jtl => some (.cons jv jtl)
    | _, _ => none
/-- `json.dumps` on a dict, coercing keys to strings. -/
def pyJsonDumpsDict : PyDictV → Option JObj
  | .nil => some .nil
  | .cons k v tl =>
    match jsonKeyToString k, pyJsonDumps v, pyJsonDumpsDict tl with
    | some ks, some jv, some jtl => some (.cons ks jv jtl)
    | _, _, _ => none
end

mutual
/-- `json.loads`: the Python value a JSON document parses to (arrays
become lists, object keys become strings). -/
def pyJsonLoads : JVal → PyVal
  | .jnull => .pnone
  | .jbool b => .pbool b
  | .jnum n => .pint n
  | .jstr s => .pstr s
  | .jarr xs => .plist (pyJsonLoadsArr xs)
  | .jobj kvs => .pdict (pyJsonLoadsObj kvs)
/-- `json.loads` on an array. -/
def pyJsonLoadsArr : JArr → PyListV
  | .nil => .nil
  | .cons v tl => .cons (pyJsonLoads v) (pyJsonLoadsArr tl)
/-- `json.loads` on an object. -/
def pyJsonLoadsObj : JObj → PyDictV
  | .nil => .nil
  | .cons k v tl => .cons (.pstr k) (pyJsonLoads v) (pyJsonLoadsObj tl)
end

mutual
/-- The fragment of Python values on which `json.dumps`/`json.loads`
is a faithful round trip: no tuples and only string dict keys. -/
def jsonFaithful : PyVal → Bool
  | .pnone => true
  | .pbool _ => true
  | .pint _ => true
  | .pstr _ => true
  | .plist xs => jsonFaithfulList xs
  | .ptuple _ => false
  | .pdict kvs => jsonFaithfulDict kvs
/-- Faithfulness for lists. -/
def jsonFaithfulList : PyListV → Bool
  | .nil => true
  | .cons v tl => jsonFaithful v && jsonFaithfulList tl
/-- Faithfulness for dicts: keys must be strings. -/
def jsonFaithfulDict : PyDictV → Bool
  | .nil => true
  | .cons k v tl =>
    (match k with | .pstr _ => true | _ => false) && jsonFaithful v && jsonFaithfulDict tl
end

mutual
/-- Size measure on Python values, for strong induction. -/
def sizeV : PyVal → Nat
  | .pnone => 1
  | .pbool _ => 1
  | .pint _ => 1
  | .pstr _ => 1
  | .plist xs => 1 + sizeL xs
  | .ptuple xs => 1 + sizeL xs
  | .pdict kvs => 1 + sizeD kvs
/-- Size measure on lists. -/
def sizeL : PyListV → Nat
  | .nil => 0
  | .cons v tl => 1 + sizeV v + sizeL tl
/-- Size measure on dicts. -/
def sizeD : PyDictV → Nat
  | .nil => 0
  | .cons k v tl => 1 + sizeV k + sizeV v + sizeD tl
end

/-! ### Helper lemmas -/

theorem retryGo_zero (f : Nat → Except PyExc α) (n : Nat) : retryGo f n 0 = (f n, n) := rfl

theorem retryGo_succ_ok {f : Nat → Except PyExc α} {n : Nat} {a : α} (h : f n = .ok a)
    (r : Nat) : retryGo f n (r + 1) = (.ok a, n) := by
  simp [retryGo, h]

theorem retryGo_succ_retry {f : Nat → Except PyExc α} {n : Nat} {e : PyExc}
    (h : f n = .error e) (hr : is_retryable_exception e = true) (r : Nat) :
    retryGo f n (r + 1) = retryGo f (n + 1) r := by
  simp [retryGo, h, hr]

theorem retryGo_succ_fatal {f : Nat → Except PyExc α} {n : Nat} {e : PyExc}
    (h : f n = .error e) (hr : is_retryable_exception e = false) (r : Nat) :
    retryGo f n (r + 1) = (.error e, n) := by
  simp [retryGo, h, hr]

theorem retryGo_snd_ge (f : Nat → Except PyExc α) : ∀ (r n : Nat), n ≤ (retryGo f n r).2 := by
  intro r
  induction r with
  | zero => intro n; simp [retryGo]
  | succ r ih =>
    intro n
    cases hf : f n with
    | ok a => simp [retryGo, hf]
    | error e =>
      cases hr : is_retryable_exception e with
      | false => simp [retryGo, hf, hr]
      | true =>
        rw [retryGo_succ_retry hf hr]
        have := ih (n + 1)
        omega

theorem retryGo_skip (f : Nat → Except PyExc α) :
    ∀ (m n r : Nat), m ≤ r →
      (∀ i, n ≤ i → i < n + m → ∃ e, f i = .error e ∧ is_retryable_exception e = true) →
      retryGo f n r = retryGo f (n + m) (r - m) := by
  intro m
  induction m with
  | zero => intro n r _ _; simp
  | succ m ih =>
    intro n r hm hall
    obtain ⟨e, hf, hr⟩ := hall n (le_refl n) (by omega)
    obtain ⟨r', rfl⟩ : ∃ r', r = r' + 1 := ⟨r - 1, by omega⟩
    rw [retryGo_succ_retry hf hr]
    rw [ih (n + 1) r' (by omega) (fun i h1 h2 => hall i (by omega) (by omega))]
    have h1 : n + 1 + m = n + (m + 1) := by omega
    have h2 : r' - m = r' + 1 - (m + 1) := by omega
    rw [h1, h2]

theorem chunksOfFuel_flatten {α : Type} (n : Nat) (hn : 0 < n) :
    ∀ (fuel : Nat) (l : List α), l.length ≤ fuel → (chunksOfFuel fuel n l).flatten = l := by
  intro fuel
  induction fuel with
  | zero =>
    intro l hl
    cases l with
    | nil => simp [chunksOfFuel]
    | cons a as => simp at hl
  | succ fuel ih =>
    intro l hl
    cases l with
    | nil => simp [chunksOfFuel]
    | cons a as =>
      simp only [chunksOfFuel, List.flatten_cons]
      rw [ih _ (by simp only [List.length_drop]; simp at hl ⊢; omega)]
      exact List.take_append_drop n (a :: as)

theorem chunksOf_flatten {α : Type} (n : Nat) (hn : 0 < n) (l : List α) :
    (chunksOf n l).flatten = l :=
  chunksOfFuel_flatten n hn l.length l le_rfl

theorem CHUNKSIZE_pos : 0 < CHUNKSIZE := by decide

theorem foldl_hash_size :
    ∀ (cs : List (List Nat)) (a : List Nat) (s : Nat),
      cs.foldl (fun acc c => (acc.1 ++ c, acc.2 + c.length)) (a, s) =
        (a ++ cs.flatten, s + cs.flatten.length) := by
  intro cs
  induction cs with
  | nil => intro a s; simp
  | cons c cs ih =>
    intro a s
    simp only [List.foldl_cons, ih, List.flatten_cons, List.length_append, Prod.mk.injEq]
    exact ⟨by simp [List.append_assoc], by omega⟩

theorem hash_and_size_eq (bytes : List Nat) : hash_and_size bytes = (bytes, bytes.length) := by
  unfold hash_and_size
  rw [foldl_hash_size]
  simp [chunksOf_flatten CHUNKSIZE CHUNKSIZE_pos]

theorem foldl_stream :
    ∀ (cs : List (List Nat)) (a : List Nat) (s : Nat) (b : List Nat),
      cs.foldl (fun acc chunk => (acc.1 ++ chunk, acc.2.1 + chunk.length, acc.2.2 ++ chunk))
          (a, s, b) =
        (a ++ cs.flatten, s + cs.flatten.length, b ++ cs.flatten) := by
  intro cs
  induction cs with
  | nil => intro a s b; simp
  | cons c cs ih =>
    intro a s b
    simp only [List.foldl_cons, ih, List.flatten_cons, List.length_append, Prod.mk.injEq]
    exact ⟨by simp [List.append_assoc], by omega, by simp [List.append_assoc]⟩

theorem stream_download_eq (body : List Nat) (md5f : List Nat → List Nat) :
    stream_download_response_to_file body md5f = (b64string (md5f body), body.length, body) := by
  unfold stream_download_response_to_file
  rw [foldl_stream]
  simp [chunksOf_flatten CHUNKSIZE CHUNKSIZE_pos]

theorem utf8EncodeChar_ne_nil (c : Nat) : utf8EncodeChar c ≠ [] := by
  unfold utf8EncodeChar
  split_ifs <;> simp

theorem utf8EncodeChar_length_pos (c : Nat) : 1 ≤ (utf8EncodeChar c).length := by
  unfold utf8EncodeChar
  split_ifs <;> simp

theorem utf8DecodeOne_encodeChar {c : Nat} (h : isUtf8Scalar c = true) (t : List Nat) :
    utf8DecodeOne (utf8EncodeChar c ++ t) = some (c, t) := by
  have h' : c < 0x110000 ∧ ¬(0xD800 ≤ c ∧ c < 0xE000) := of_decide_eq_true h
  by_cases h1 : c < 0x80
  · simp only [utf8EncodeChar, if_pos h1, List.cons_append, List.nil_append, utf8DecodeOne]
  · by_cases h2 : c < 0x800
    · simp only [utf8EncodeChar, if_neg h1, if_pos h2, List.cons_append, List.nil_append,
        utf8DecodeOne, isUtf8Cont, Bool.and_eq_true, decide_eq_true_eq]
      split_ifs <;>
        first
          | (exfalso; omega)
          | (simp only [Option.some.injEq, Prod.mk.injEq]; exact ⟨by omega, by trivial⟩)
    · by_cases h3 : c < 0x10000
      · simp only [utf8EncodeChar, if_neg h1, if_neg h2, if_pos h3, List.cons_append,
          List.nil_append, utf8DecodeOne, isUtf8Cont, Bool.and_eq_true, decide_eq_true_eq]
        split_ifs <;>
          first
            | (exfalso; omega)
            | (simp only [Option.some.injEq, Prod.mk.injEq]; exact ⟨by omega, by trivial⟩)
      · simp only [utf8EncodeChar, if_neg h1, if_neg h2, if_neg h3, List.cons_append,
          List.nil_append, utf8DecodeOne, isUtf8Cont, Bool.and_eq_true, decide_eq_true_eq]
        split_ifs <;>
          first
            | (exfalso; omega)
            | (simp only [Option.some.injEq, Prod.mk.injEq]; exact ⟨by omega, by trivial⟩)

theorem utf8DecodeFuel_encode :
    ∀ (s : List Nat) (fuel : Nat), s.all isUtf8Scalar = true →
      ((s.map utf8EncodeChar).flatten).length ≤ fuel →
      utf8DecodeFuel fuel ((s.map utf8EncodeChar).flatten) = some s := by
  intro s
  induction s with
  | nil => intro fuel _ _; cases fuel <;> simp [utf8DecodeFuel]
  | cons c s ih =>
    intro fuel hall hlen
    simp only [List.all_cons, Bool.and_eq_true] at hall
    simp only [List.map_cons, List.flatten_cons] at hlen ⊢
    have hpos := utf8EncodeChar_length_pos c
    have hne : utf8EncodeChar c ++ (s.map utf8EncodeChar).flatten ≠ [] := by
      intro hcontra
      exact utf8EncodeChar_ne_nil c (List.append_eq_nil.mp hcontra).1
    obtain ⟨fuel', rfl⟩ : ∃ f', fuel = f' + 1 := by
      refine ⟨fuel - 1, ?_⟩
      simp only [List.length_append] at hlen
      omega
    simp only [utf8DecodeFuel]
    rw [if_neg hne, utf8DecodeOne_encodeChar hall.1]
    have hrec := ih fuel' hall.2 (by simp only [List.length_append] at hlen; omega)
    simp [hrec]

theorem text_roundtrip (s : List Nat) (h : s.all isUtf8Scalar = true) :
    (text_encode s).bind text_decode = some s := by
  unfold text_encode pyEncodeUtf8
  rw [if_pos h]
  simp only [Option.some_bind]
  unfold text_decode pyDecodeUtf8
  exact utf8DecodeFuel_encode s _ h le_rfl

theorem sizeV_pos (v : PyVal) : 1 ≤ sizeV v := by
  cases v <;> simp [sizeV]

theorem json_roundtrip_aux :
    ∀ n : Nat,
      (∀ v : PyVal, sizeV v ≤ n → jsonFaithful v = true →
        ∃ j, pyJsonDumps v = some j ∧ pyJsonLoads j = v) ∧
      (∀ xs : PyListV, sizeL xs ≤ n → jsonFaithfulList xs = true →
        ∃ j, pyJsonDumpsList xs = some j ∧ pyJsonLoadsArr j = xs) ∧
      (∀ kvs : PyDictV, sizeD kvs ≤ n → jsonFaithfulDict kvs = true →
        ∃ j, pyJsonDumpsDict kvs = some j ∧ pyJsonLoadsObj j = kvs) := by
  intro n
  induction n with
  | zero =>
    refine ⟨?_, ?_, ?_⟩
    · intro v hv _
      have := sizeV_pos v
      omega
    · intro xs hxs _
      cases xs with
      | nil => exact ⟨.nil, by simp [pyJsonDumpsList], by simp [pyJsonLoadsArr]⟩
      | cons v tl => exfalso; simp only [sizeL] at hxs; omega
    · intro kvs hk _
      cases kvs with
      | nil => exact ⟨.nil, by simp [pyJsonDumpsDict], by simp [pyJsonLoadsObj]⟩
      | cons k v tl => exfalso; simp only [sizeD] at hk; omega
  | succ n ih =>
    obtain ⟨ihV, ihL, ihD⟩ := ih
    refine ⟨?_, ?_, ?_⟩
    · intro v hv hf
      cases v with
      | pnone => exact ⟨.jnull, by simp [pyJsonDumps], by simp [pyJsonLoads]⟩
      | pbool b => exact ⟨.jbool b, by simp [pyJsonDumps], by simp [pyJsonLoads]⟩
      | pint m => exact ⟨.jnum m, by simp [pyJsonDumps], by simp [pyJsonLoads]⟩
      | pstr s => exact ⟨.jstr s, by simp [pyJsonDumps], by simp [pyJsonLoads]⟩
      | plist xs =>
        simp only [sizeV] at hv
        simp only [jsonFaithful] at hf
        obtain ⟨j, hd1, hd2⟩ := ihL xs (by omega) hf
        exact ⟨.jarr j, by simp [pyJsonDumps, hd1], by simp [pyJsonLoads, hd2]⟩
      | ptuple xs => simp [jsonFaithful] at hf
      | pdict kvs =>
        simp only [sizeV] at hv
        simp only [jsonFaithful] at hf
        obtain ⟨j, hd1, hd2⟩ := ihD kvs (by omega) hf
        exact ⟨.jobj j, by simp [pyJsonDumps, hd1], by simp [pyJsonLoads, hd2]⟩
    · intro xs hxs hf
      cases xs with
      | nil => exact ⟨.nil, by simp [pyJsonDumpsList], by simp [pyJsonLoadsArr]⟩
      | cons v tl =>
        simp only [sizeL] at hxs
        simp only [jsonFaithfulList, Bool.and_eq_true] at hf
        obtain ⟨jv, hv1, hv2⟩ := ihV v (by omega) hf.1
        obtain ⟨jtl, ht1, ht2⟩ := ihL tl (by omega) hf.2
        exact ⟨.cons jv jtl, by simp [pyJsonDumpsList, hv1, ht1],
          by simp [pyJsonLoadsArr, hv2, ht2]⟩
    · intro kvs hk hf
      cases kvs with
      | nil => exact ⟨.nil, by simp [pyJsonDumpsDict], by simp [pyJsonLoadsObj]⟩
      | cons k v tl =>
        simp only [sizeD] at hk
        simp only [jsonFaithfulDict, Bool.and_eq_true] at hf
        obtain ⟨⟨hm, hfv⟩, hftl⟩ := hf
        cases k with
        | pstr s =>
          obtain ⟨jv, hv1, hv2⟩ := ihV v (by omega) hfv
          obtain ⟨jtl, ht1, ht2⟩ := ihD tl (by omega) hftl
          exact ⟨.cons s jv jtl, by simp [pyJsonDumpsDict, jsonKeyToString, hv1, ht1],
            by simp [pyJsonLoadsObj, hv2, ht2]⟩
        | pnone => simp at hm
        | pbool b => simp at hm
        | pint m => simp at hm
        | plist l2 => simp at hm
        | ptuple l2 => simp at hm
        | pdict d2 => simp at hm

/-! ### Claim theorems -/

/-- C1: for every completed download the accumulated byte count equals
the server-declared size and the accumulated base64 MD5 digest equals
the server-declared digest; on any mismatch `gcs_download` raises a
fatal `RuntimeError` and `serialized_download` returns that error —
independently of `decode` and of any default — so no value is ever
produced from mismatching bytes. -/
theorem integrity_check_blocks_decode {V : Type} (decode : List Nat → V) (key : String)
    (geturlNet : Nat → Except PyExc (Nat × GetUrlResponse)) (gres : GetUrlResponse)
    (body : List Nat) (dflt : PyDefault V) (md5f : List Nat → List Nat)
    (hok : (get_download_url key geturlNet).1 = .ok gres) :
    (∀ fb, gcs_download key gres (fun _ => .ok (200, body)) md5f = .ok fb →
      gres.size = body.length ∧ gres.md5 = b64string (md5f body) ∧ fb = body) ∧
    ((gres.size ≠ body.length ∨ gres.md5 ≠ b64string (md5f body)) →
      serialized_download decode key geturlNet (fun _ => .ok (200, body)) dflt md5f =
        .error (.runtimeError (if gres.size ≠ body.length then
            "File sizes do not match: " ++ toString gres.size ++ " != " ++ toString body.length
          else
            "Checksums do not match: " ++ gres.md5 ++ " != " ++ b64string (md5f body)))) := by
  constructor
  · intro fb hfb
    by_cases hsz : gres.size = body.length
    · by_cases hmd : gres.md5 = b64string (md5f body)
      · have hgcs : gcs_download key gres (fun _ => .ok (200, body)) md5f = .ok body := by
          simp [gcs_download, stream_download_eq, hsz, hmd]
        rw [hgcs] at hfb
        refine ⟨hsz, hmd, ?_⟩
        injection hfb with h
        exact h.symm
      · have hgcs : gcs_download key gres (fun _ => .ok (200, body)) md5f =
            .error (.runtimeError
              ("Checksums do not match: " ++ gres.md5 ++ " != " ++ b64string (md5f body))) := by
          simp [gcs_download, stream_download_eq, hsz, hmd]
        rw [hgcs] at hfb
        simp at hfb
    · have hgcs : gcs_download key gres (fun _ => .ok (200, body)) md5f =
          .error (.runtimeError
            ("File sizes do not match: " ++ toString gres.size ++ " != " ++
              toString body.length)) := by
        simp [gcs_download, stream_download_eq, hsz]
      rw [hgcs] at hfb
      simp at hfb
  · intro hmis
    by_cases hsz : gres.size = body.length
    · have hmd : gres.md5 ≠ b64string (md5f body) := by
        rcases hmis with h | h
        · exact absurd hsz h
        · exact h
      have hgcs : gcs_download key gres (fun _ => .ok (200, body)) md5f =
          .error (.runtimeError
            ("Checksums do not match: " ++ gres.md5 ++ " != " ++ b64string (md5f body))) := by
        simp [gcs_download, stream_download_eq, hsz, hmd]
      simp [serialized_download, hok, hgcs, hsz]
    · have hgcs : gcs_download key gres (fun _ => .ok (200, body)) md5f =
          .error (.runtimeError
            ("File sizes do not match: " ++ toString gres.size ++ " != " ++
              toString body.length)) := by
        simp [gcs_download, stream_download_eq, hsz]
      simp [serialized_download, hok, hgcs, hsz]

/-- Witness for C1: a download whose server-declared digest differs from
the digest of the streamed bytes fails with the checksum error. -/
theorem integrity_check_blocks_decode_witness :
    serialized_download (fun _ => (0 : Nat)) "k" (fun _ => .ok (200, ⟨"u", "zzz", 3⟩))
      (fun _ => .ok (200, [1, 2, 3])) .none (fun l => l) =
      .error (.runtimeError "Checksums do not match: zzz != AQID") := by
  have h := (integrity_check_blocks_decode (fun _ => (0 : Nat)) "k"
    (fun _ => .ok (200, ⟨"u", "zzz", 3⟩)) ⟨"u", "zzz", 3⟩ [1, 2, 3] .none (fun l => l)
    rfl).2 (Or.inr (by decide))
  refine h.trans (congrArg (fun m => Except.error (PyExc.runtimeError m)) ?_)
  decide

/-- C2: under `default_dbapi_retry`, transient errors followed by a
success on attempt `k ≤ 5` yield success after exactly `k` attempts;
transient errors on all 5 attempts re-raise the 5th error unchanged
after exactly 5 attempts; and a non-transient error on any attempt
propagates immediately with no further attempts. -/
theorem retry_policy_semantics {α : Type} (f : Nat → Except PyExc α) :
    (∀ k v, 1 ≤ k → k ≤ 5 →
      (∀ i, 1 ≤ i → i < k → ∃ e, f i = .error e ∧ is_retryable_exception e = true) →
      f k = .ok v → default_dbapi_retry f = (.ok v, k)) ∧
    (∀ e, (∀ i, 1 ≤ i → i < 5 → ∃ e2, f i = .error e2 ∧ is_retryable_exception e2 = true) →
      f 5 = .error e → default_dbapi_retry f = (.error e, 5)) ∧
    (∀ j e, 1 ≤ j → j ≤ 5 →
      (∀ i, 1 ≤ i → i < j → ∃ e2, f i = .error e2 ∧ is_retryable_exception e2 = true) →
      f j = .error e → is_retryable_exception e = false →
      default_dbapi_retry f = (.error e, j)) := by
  refine ⟨?_, ?_, ?_⟩
  · intro k v hk1 hk5 hall hfk
    have hskip := retryGo_skip f (k - 1) 1 4 (by omega)
      (fun i h1 h2 => hall i (by omega) (by omega))
    have h1k : 1 + (k - 1) = k := by omega
    rw [h1k] at hskip
    unfold default_dbapi_retry
    rw [hskip]
    by_cases hke : k = 5
    · subst hke
      norm_num [retryGo_zero, hfk]
    · have hsub : 4 - (k - 1) = (4 - k) + 1 := by omega
      rw [hsub, retryGo_succ_ok hfk]
  · intro e hall hf5
    have hskip := retryGo_skip f 4 1 4 (by omega)
      (fun i h1 h2 => hall i (by omega) (by omega))
    unfold default_dbapi_retry
    rw [hskip]
    norm_num [retryGo_zero, hf5]
  · intro j e hj1 hj5 hall hfj hfatal
    have hskip := retryGo_skip f (j - 1) 1 4 (by omega)
      (fun i h1 h2 => hall i (by omega) (by omega))
    have h1j : 1 + (j - 1) = j := by omega
    rw [h1j] at hskip
    unfold default_dbapi_retry
    rw [hskip]
    by_cases hje : j = 5
    · subst hje
      norm_num [retryGo_zero, hfj]
    · have hsub : 4 - (j - 1) = (4 - j) + 1 := by omega
      rw [hsub, retryGo_succ_fatal hfj hfatal]

/-- Witness for C2: four timeouts then a success succeed on the 5th
attempt. -/
theorem retry_policy_semantics_witness :
    default_dbapi_retry
      (fun i => if i ≤ 4 then (.error .timeoutException : Except PyExc Nat) else .ok 7) =
      (.ok 7, 5) :=
  (retry_policy_semantics _).1 5 7 (by omega) (by omega)
    (fun i h1 h2 => ⟨.timeoutException, by simp [show i ≤ 4 from by omega], rfl⟩)
    (by simp)

/-- C3 counterexample: `serialized_download` performs no key
validation.  For the invalid key `"bad key!"` it issues one control
plane request and fails with `FileNotFoundError` (from the server's
404), not with the validation `ValueError` — contradicting the claim
that `get` fails with a validation error before any network call. -/
theorem get_skips_key_validation_cex :
    data_key_is_valid "bad key!" = false ∧
    serialized_download_calls "bad key!" (fun _ => .ok (404, ⟨"u", "m", 0⟩)) = 1 ∧
    serialized_download (fun _ => (0 : Nat)) "bad key!" (fun _ => .ok (404, ⟨"u", "m", 0⟩))
      (fun _ => .ok (200, [])) .none (fun l => l) =
      .error (.fileNotFoundError "bad key! not found") :=
  ⟨by decide, rfl, rfl⟩

/-- C3 (amended): `put` (via `serialized_upload`) rejects an invalid key
with the validation `ValueError` before issuing any network call, while
`get` (via `serialized_download`) performs no client-side key validation
and always issues at least one network call, whatever the key. -/
theorem key_validation_upload_only {V : Type} (key : String)
    (hk : data_key_is_valid key = false) :
    (∀ (encode : V → List Nat) (ct : String) (shapeOf : V → Option ContentShape)
        (performer : String) (v : V) (md5f : List Nat → List Nat)
        (prepNet : Nat → Except PyExc (Nat × PrepareResponse))
        (putNet : Nat → Except PyExc Nat),
      serialized_upload encode ct shapeOf performer key v md5f prepNet putNet =
        ⟨.error (.valueError invalid_data_key_error_message), none, 0⟩) ∧
    (∀ geturlNet : Nat → Except PyExc (Nat × GetUrlResponse),
      1 ≤ serialized_download_calls key geturlNet) := by
  constructor
  · intro encode ct shapeOf performer v md5f prepNet putNet
    simp [serialized_upload, hk]
  · intro geturlNet
    have h := retryGo_snd_ge (wrapNet (get_download_url_body key) geturlNet) 4 1
    simp only [serialized_download_calls, get_download_url, default_dbapi_retry]
    omega

/-- Witness for C3 (amended): uploading under `"bad key!"` fails with
the validation error and zero network calls. -/
theorem key_validation_upload_only_witness :
    serialized_upload (fun v : Nat => [v]) "text/plain" (fun _ => none) "user" "bad key!" 3
      (fun l => l) (fun _ => .ok (200, ⟨"s", "b"⟩)) (fun _ => .ok 200) =
      ⟨.error (.valueError invalid_data_key_error_message), none, 0⟩ :=
  (key_validation_upload_only "bad key!" (by decide)).1 _ _ _ _ _ _ _ _

/-- C4 counterexample: `delete_file` and `gcs_download` carry no retry
decorator.  On an oracle whose first attempt raises a transient timeout
and whose second attempt would succeed, both fail immediately with the
timeout after a single call — while the same attempt function run under
`default_dbapi_retry` succeeds on the second attempt.  So not every
network operation is executed under the transient-retry policy. -/
theorem unretried_operations_cex :
    delete_file (fun n => if n = 1 then .error .timeoutException else .ok 200) =
      (.error .timeoutException, 1) ∧
    default_dbapi_retry (wrapNet delete_file_body
      (fun n => if n = 1 then .error .timeoutException else .ok 200)) = (.ok (), 2) ∧
    gcs_download "k" ⟨"u", "", 0⟩
      (fun n => if n = 1 then .error .timeoutException else .ok (200, [])) (fun l => l) =
      .error .timeoutException :=
  ⟨rfl, rfl, rfl⟩

/-- C4 (amended): `list_files`, `prepare_upload`, `gcs_upload` (data
PUT) and `get_download_url` are executed under the transient-retry
policy — a transient first-attempt error followed by a success yields
success on the second attempt — while `delete_file` and `gcs_download`
(data GET) issue a single attempt and propagate a first-attempt
transient error immediately. -/
theorem retry_coverage_amended (e : PyExc) (he : is_retryable_exception e = true) :
    (∀ items : List FileListEntry,
      list_files (fun n => if n = 1 then .error e else .ok (200, items)) = (.ok items, 2)) ∧
    (∀ (key : String) (presp : PrepareResponse),
      prepare_upload key (fun n => if n = 1 then .error e else .ok (200, presp)) =
        (.ok presp, 2)) ∧
    (∀ key blob : String,
      gcs_upload key blob (fun n => if n = 1 then .error e else .ok 200) = (.ok (), 2)) ∧
    (∀ (key : String) (gres : GetUrlResponse),
      get_download_url key (fun n => if n = 1 then .error e else .ok (200, gres)) =
        (.ok gres, 2)) ∧
    (delete_file (fun n => if n = 1 then .error e else .ok 200) = (.error e, 1)) ∧
    (∀ (key : String) (gres : GetUrlResponse) (body : List Nat) (md5f : List Nat → List Nat),
      gcs_download key gres (fun n => if n = 1 then .error e else .ok (200, body)) md5f =
        .error e) := by
  refine ⟨?_, ?_, ?_, ?_, ?_, ?_⟩
  · intro items
    have h1 : wrapNet list_files_body (fun n => if n = 1 then .error e else .ok (200, items)) 1 =
        .error e := rfl
    have h2 : wrapNet list_files_body (fun n => if n = 1 then .error e else .ok (200, items)) 2 =
        .ok items := rfl
    unfold list_files default_dbapi_retry
    rw [retryGo_succ_retry h1 he, retryGo_succ_ok h2]
  · intro key presp
    have h1 : wrapNet (prepare_upload_body key)
        (fun n => if n = 1 then .error e else .ok (200, presp)) 1 = .error e := rfl
    have h2 : wrapNet (prepare_upload_body key)
        (fun n => if n = 1 then .error e else .ok (200, presp)) 2 = .ok presp := rfl
    unfold prepare_upload default_dbapi_retry
    rw [retryGo_succ_retry h1 he, retryGo_succ_ok h2]
  · intro key blob
    have h1 : wrapNet (gcs_upload_body key blob)
        (fun n => if n = 1 then .error e else .ok 200) 1 = .error e := rfl
    have h2 : wrapNet (gcs_upload_body key blob)
        (fun n => if n = 1 then .error e else .ok 200) 2 = .ok () := rfl
    unfold gcs_upload default_dbapi_retry
    rw [retryGo_succ_retry h1 he, retryGo_succ_ok h2]
  · intro key gres
    have h1 : wrapNet (get_download_url_body key)
        (fun n => if n = 1 then .error e else .ok (200, gres)) 1 = .error e := rfl
    have h2 : wrapNet (get_download_url_body key)
        (fun n => if n = 1 then .error e else .ok (200, gres)) 2 = .ok gres := rfl
    unfold get_download_url default_dbapi_retry
    rw [retryGo_succ_retry h1 he, retryGo_succ_ok h2]
  · rfl
  · intro key gres body md5f
    rfl

/-- Witness for C4 (amended): a transient first attempt then a good
response makes `list_files` succeed on attempt 2. -/
theorem retry_coverage_amended_witness :
    list_files
      (fun n => if n = 1 then .error .tryAgain else .ok (200, ([] : List FileListEntry))) =
      (.ok [], 2) :=
  (retry_coverage_amended .tryAgain rfl).1 []

/-- C5 counterexample: with `last_refresh = 0` a request issued at
exactly `T + 15min = 900` does **not** trigger a refresh — the bearer
token is attached unmodified and zero refresh exchanges occur, because
`token_expires_soon` uses a strict comparison. -/
theorem token_refresh_boundary_cex :
    auth_flow ⟨"k", "r", "tok", 0⟩ 900 900 (200, "newtok") =
      .ok (⟨"k", "r", "tok", 0⟩, 0, "Bearer tok") := by
  simp [auth_flow, token_expires_soon, refresh_interval, apply_access_token]
  norm_num

/-- C5 (amended): a request issued at or before `T + 15min` reuses the
stored token unmodified with no refresh exchange; a request issued
strictly after `T + 15min` performs exactly one refresh exchange —
updating the stored token and the freshness timestamp — before the new
bearer token is attached. -/
theorem token_refresh_semantics_amended (a : DatabuttonAuth) (now nowResp : ℚ)
    (resp : Nat × String) :
    (a.access_token ≠ "" → now - a.last_refresh ≤ refresh_interval →
      auth_flow a now nowResp resp = .ok (a, 0, "Bearer " ++ a.access_token)) ∧
    (now - a.last_refresh > refresh_interval → resp.1 = 200 → resp.2 ≠ "" →
      auth_flow a now nowResp resp =
        .ok ({ a with access_token := resp.2, last_refresh := nowResp }, 1,
          "Bearer " ++ resp.2)) := by
  constructor
  · intro ht hle
    have hf : token_expires_soon a now = false := by
      simp only [token_expires_soon, decide_eq_false_iff_not]
      exact not_lt.mpr hle
    simp [auth_flow, hf, apply_access_token, ht]
  · intro hgt h200 hne
    have hf : token_expires_soon a now = true := by
      simp only [token_expires_soon, decide_eq_true_eq]
      exact hgt
    simp [auth_flow, hf, handle_refresh_response, h200, apply_access_token, hne]

/-- Witness for C5 (amended): a request 100 seconds after the refresh
reuses the token. -/
theorem token_refresh_semantics_amended_witness :
    auth_flow ⟨"k", "r", "tok", 0⟩ 100 100 (200, "newtok") =
      .ok (⟨"k", "r", "tok", 0⟩, 0, "Bearer " ++ "tok") :=
  (token_refresh_semantics_amended ⟨"k", "r", "tok", 0⟩ 100 100 (200, "newtok")).1
    (by decide) (by norm_num [refresh_interval])

/-- C6 counterexample: with the default `default=None`, a missing key
makes `get` re-raise the `FileNotFoundError` rather than return the
default — so the claim does not hold for every caller-supplied
default. -/
theorem default_none_reraises_cex :
    serialized_download (fun _ => (0 : Nat)) "absent" (fun _ => .ok (404, ⟨"u", "m", 0⟩))
      (fun _ => .ok (200, [])) .none (fun l => l) =
      .error (.fileNotFoundError "absent not found") := rfl

/-- C6 (amended): when the control plane reports the key as not found,
`get` with a non-`None` default returns it — calling it first when it is
callable — instead of raising, while the `None` default re-raises the
missing-key error. -/
theorem missing_key_default_amended {V : Type} (decode : List Nat → V) (key : String)
    (geturlNet : Nat → Except PyExc (Nat × GetUrlResponse))
    (gcsNet : Nat → Except PyExc (Nat × List Nat)) (md5f : List Nat → List Nat)
    (m : String)
    (hnf : (get_download_url key geturlNet).1 = .error (.fileNotFoundError m)) :
    (∀ v, serialized_download decode key geturlNet gcsNet (.value v) md5f = .ok v) ∧
    (∀ f : Unit → V,
      serialized_download decode key geturlNet gcsNet (.callableDefault f) md5f = .ok (f ())) ∧
    serialized_download decode key geturlNet gcsNet .none md5f =
      .error (.fileNotFoundError m) := by
  refine ⟨fun v => ?_, fun f => ?_, ?_⟩ <;> simp [serialized_download, hnf]

/-- Witness for C6 (amended): a missing key with default `42` returns
`42`. -/
theorem missing_key_default_amended_witness :
    serialized_download (fun _ => (0 : Nat)) "absent" (fun _ => .ok (404, ⟨"u", "m", 0⟩))
      (fun _ => .ok (200, [])) (.value 42) (fun l => l) = .ok 42 :=
  (missing_key_default_amended (fun _ => (0 : Nat)) "absent" (fun _ => .ok (404, ⟨"u", "m", 0⟩))
    (fun _ => .ok (200, [])) (fun l => l) "absent not found" rfl).1 42

/-- C7 counterexample: the json round trip is not the identity on every
JSON-serializable dict.  `json.dumps` silently coerces the int key `1`
to the string `"1"`, and serializes a tuple value as an array that
`json.loads` returns as a list — both re-read as values not structurally
equal to the original. -/
theorem json_roundtrip_cex :
    ((pyJsonDumps (.pdict (.cons (.pint 1) (.pint 2) .nil))).map pyJsonLoads =
        some (.pdict (.cons (.pstr "1") (.pint 2) .nil)) ∧
      (PyVal.pdict (.cons (.pstr "1") (.pint 2) .nil)) ≠
        .pdict (.cons (.pint 1) (.pint 2) .nil)) ∧
    ((pyJsonDumps (.pdict (.cons (.pstr "a") (.ptuple (.cons (.pint 1) .nil)) .nil))).map
        pyJsonLoads =
        some (.pdict (.cons (.pstr "a") (.plist (.cons (.pint 1) .nil)) .nil)) ∧
      (PyVal.pdict (.cons (.pstr "a") (.plist (.cons (.pint 1) .nil)) .nil)) ≠
        .pdict (.cons (.pstr "a") (.ptuple (.cons (.pint 1) .nil)) .nil)) := by
  decide

/-- C7 (amended): decode-after-encode is the identity for the binary
serializer on all byte values, for the text serializer on all strings of
Unicode scalar values, and for the json serializer on all values whose
dict keys are strings at every nesting level and which contain no tuples
(non-string keys are coerced to strings and tuples decode as lists, so
those inputs do not round-trip; floats are out of scope). -/
theorem serializer_roundtrip_amended :
    (∀ b : List Nat, binary_decode (binary_encode b) = b) ∧
    (∀ s : List Nat, s.all isUtf8Scalar = true → (text_encode s).bind text_decode = some s) ∧
    (∀ v : PyVal, jsonFaithful v = true → (pyJsonDumps v).map pyJsonLoads = some v) := by
  refine ⟨fun b => rfl, text_roundtrip, fun v hf => ?_⟩
  obtain ⟨j, h1, h2⟩ := (json_roundtrip_aux (sizeV v)).1 v le_rfl hf
  rw [h1]
  simp [h2]

/-- Witness for C7 (amended): a three-scalar string (1-, 3- and 4-byte
UTF-8) and a nested string-keyed dict both round-trip. -/
theorem serializer_roundtrip_amended_witness :
    (text_encode [104, 8364, 128512]).bind text_decode = some [104, 8364, 128512] ∧
    (pyJsonDumps (.pdict (.cons (.pstr "a") (.plist (.cons (.pint 1) .nil)) .nil))).map
        pyJsonLoads =
      some (.pdict (.cons (.pstr "a") (.plist (.cons (.pint 1) .nil)) .nil)) :=
  ⟨serializer_roundtrip_amended.2.1 _ (by decide),
    serializer_roundtrip_amended.2.2 _ (by decide)⟩

/-- C8: `delete_file` succeeds on server status 200 and on 404 (absent
key is a silent no-op, so repeating a delete succeeds), and raises a
`RuntimeError` naming the delete operation on any other status. -/
theorem delete_idempotent (net : Nat → Except PyExc Nat) (status : Nat)
    (hnet : net 1 = .ok status) :
    ((status = 200 ∨ status = 404) → delete_file net = (.ok (), 1)) ∧
    (status ≠ 200 → status ≠ 404 →
      delete_file net =
        (.error (.runtimeError ("File delete request failed, status_code=" ++ toString status)),
          1)) := by
  constructor
  · rintro (h | h) <;> subst h <;> simp [delete_file, hnet] <;> rfl
  · intro h2 h4
    simp [delete_file, hnet, Except.bind, delete_file_body, h2, h4]

/-- Witness for C8: deleting an already-absent key (server 404)
succeeds. -/
theorem delete_idempotent_witness :
    delete_file (fun _ => .ok 404) = (.ok (), 1) :=
  (delete_idempotent (fun _ => .ok 404) 404 rfl).1 (Or.inr rfl)

/-- C9: for every successful upload, the prepare request carries
`contentLength` equal to the exact byte length of the serialized value
and `contentMd5Checksum` equal to the base64 MD5 digest of those same
bytes, computed by the chunked streaming pass over the buffer. -/
theorem prepare_request_metadata {V : Type} (encode : V → List Nat) (ct : String)
    (shapeOf : V → Option ContentShape) (performer key : String) (v : V)
    (md5f : List Nat → List Nat)
    (prepNet : Nat → Except PyExc (Nat × PrepareResponse))
    (putNet : Nat → Except PyExc Nat)
    (hok : (serialized_upload encode ct shapeOf performer key v md5f prepNet putNet).result =
      .ok ()) :
    (serialized_upload encode ct shapeOf performer key v md5f prepNet putNet).prepareRequestSent =
      some { uploadedBy := performer, dataKey := key, contentType := ct,
             contentLength := (encode v).length,
             contentMd5Checksum := b64string (md5f (encode v)),
             contentShape := shapeOf v } := by
  by_cases hk : data_key_is_valid key
  · simp only [serialized_upload, if_pos hk]
    cases hp : (prepare_upload key prepNet).1 <;>
      simp [hp, upload_prepare_request, hash_and_size_eq]
  · exfalso
    simp [serialized_upload, hk] at hok

/-- Witness for C9: uploading the two-byte serialization of `7` sends
`contentLength = 2` and the digest of `[7, 7]`. -/
theorem prepare_request_metadata_witness :
    (serialized_upload (fun v : Nat => [v, v]) "application/octet-stream" (fun _ => none)
        "user" "k" 7 (fun l => l) (fun _ => .ok (200, ⟨"s", "b"⟩))
        (fun _ => .ok 200)).prepareRequestSent =
      some { uploadedBy := "user", dataKey := "k", contentType := "application/octet-stream",
             contentLength := 2, contentMd5Checksum := b64string [7, 7],
             contentShape := none } :=
  prepare_request_metadata _ _ _ _ _ _ _ _ _ rfl

/-- C10: for the dataframes store, a missing key with the default
`ignore_not_found=True` and no explicit default returns the empty
DataFrame, while `ignore_not_found=False` with no default re-raises the
missing-key error. -/
theorem dataframes_get_empty_default {DF : Type} (emptyDF : DF) (decode : List Nat → DF)
    (key : String) (geturlNet : Nat → Except PyExc (Nat × GetUrlResponse))
    (gcsNet : Nat → Except PyExc (Nat × List Nat)) (md5f : List Nat → List Nat)
    (m : String)
    (hnf : (get_download_url key geturlNet).1 = .error (.fileNotFoundError m)) :
    dataframes_get emptyDF decode key geturlNet gcsNet md5f true .none = .ok emptyDF ∧
    dataframes_get emptyDF decode key geturlNet gcsNet md5f false .none =
      .error (.fileNotFoundError m) := by
  constructor <;> simp [dataframes_get, serialized_download, hnf]

/-- Witness for C10: a missing dataframe key returns the empty
DataFrame stand-in. -/
theorem dataframes_get_empty_default_witness :
    dataframes_get (99 : Nat) (fun _ => 0) "absent" (fun _ => .ok (404, ⟨"u", "m", 0⟩))
      (fun _ => .ok (200, [])) (fun l => l) true .none = .ok 99 :=
  (dataframes_get_empty_default 99 (fun _ => 0) "absent" (fun _ => .ok (404, ⟨"u", "m", 0⟩))
    (fun _ => .ok (200, [])) (fun l => l) "absent not found" rfl).1

end Databutton
